import Mathlib

/-!
Shallow embedding of the sampling-and-aggregation engine of
`src/app.py` (Financial Decision Simulation Model).

Conventions of the embedding:
* Python floats are modelled by exact rationals `ℚ`; a pandas `NaN`
  result is modelled by `none : Option ℚ`.
* `np.random.uniform(lo, hi)` computes `lo + (hi - lo) * u` for a unit
  draw `u` of the global random source; we thread the random source
  explicitly as a stream `src : ℕ → ℚ × ℚ` giving, for each trial
  index, the pair of unit draws `(u1, u2)` consumed by that trial.
  A source is valid when every draw lies in the unit interval.
* Python `range(n)` over a possibly negative `n : ℤ` iterates
  `n.toNat` times (a negative or zero bound yields no iterations).
-/

namespace App

/-- One simulated outcome row `(rev, cost, profit)` of `simulate_df`. -/
structure Trial where
  revenue : ℚ
  cost : ℚ
  profit : ℚ
  deriving Repr, DecidableEq

/-- `np.random.uniform(lo, hi)` applied to a unit draw `u`:
`lo + (hi - lo) * u`. -/
def uniform (lo hi u : ℚ) : ℚ := lo + (hi - lo) * u

/-- The body of the loop of `simulate_df` (src/app.py lines 100-104):
one trial from the unit draws `u1, u2`. -/
def mkTrial (base_sales gr cost_pct tax_pct u1 u2 : ℚ) : Trial :=
  let rev := base_sales * (1 + uniform (-gr) gr u1)
  let cost := rev * uniform (cost_pct - 5/100) (cost_pct + 5/100) u2
  let profit := (rev - cost) * (1 - tax_pct)
  ⟨rev, cost, profit⟩

/-- `simulate_df` (src/app.py lines 98-106): builds the ordered list of
`n_runs` trials.  `n_runs` is an integer as in Python; `range(n_runs)`
iterates `n_runs.toNat` times. -/
def simulate_df (base_sales gr cost_pct tax_pct : ℚ) (n_runs : ℤ)
    (src : ℕ → ℚ × ℚ) : List Trial :=
  (List.range n_runs.toNat).map
    (fun i => mkTrial base_sales gr cost_pct tax_pct (src i).1 (src i).2)

/-- A random source is valid when every unit draw lies in `[0, 1]`. -/
def ValidSrc (src : ℕ → ℚ × ℚ) : Prop :=
  ∀ i, 0 ≤ (src i).1 ∧ (src i).1 ≤ 1 ∧ 0 ≤ (src i).2 ∧ (src i).2 ≤ 1

/-- The `Profit` column of a trial set. -/
def profits (ts : List Trial) : List ℚ := ts.map Trial.profit

/-- pandas `Series.mean()`: `NaN` (= `none`) on an empty series,
otherwise the arithmetic mean. -/
def seriesMean (xs : List ℚ) : Option ℚ :=
  if xs.length = 0 then none else some (xs.sum / xs.length)

/-- pandas `Series.max()`: `NaN` (= `none`) on an empty series,
otherwise the greatest element. -/
def seriesMax (xs : List ℚ) : Option ℚ :=
  xs.foldr (fun x acc => match acc with
    | none => some x
    | some m => some (max x m)) none

/-- pandas `Series.min()`: `NaN` (= `none`) on an empty series,
otherwise the least element. -/
def seriesMin (xs : List ℚ) : Option ℚ :=
  xs.foldr (fun x acc => match acc with
    | none => some x
    | some m => some (min x m)) none

/-- Square of pandas `Series.std()` (sample standard deviation with
divisor `n - 1`): the sample variance.  `NaN` (= `none`) when the
series has fewer than two points; the standard deviation itself is the
(irrational) square root of this value, so the `none`/`some` shape and
the `n - 1` divisor are faithfully captured here. -/
def seriesVar (xs : List ℚ) : Option ℚ :=
  if xs.length ≤ 1 then none
  else some ((xs.map (fun x => (x - xs.sum / xs.length) ^ 2)).sum
              / ((xs.length : ℚ) - 1))

/-- The `metrics` dictionary of `run_and_save_once`
(src/app.py lines 221-226): avg / max / min over the `Profit` column,
and the sample variance standing for the square of `std`. -/
structure Metrics where
  avg : Option ℚ
  maxv : Option ℚ
  minv : Option ℚ
  varv : Option ℚ
  deriving Repr, DecidableEq

/-- `run_and_save_once`'s statistics step: summary statistics of the
`Profit` column of a trial set. -/
def run_metrics (ts : List Trial) : Metrics :=
  { avg := seriesMean (profits ts)
    maxv := seriesMax (profits ts)
    minv := seriesMin (profits ts)
    varv := seriesVar (profits ts) }

/-- `np.linspace(0.05, 0.25, 5)` (src/app.py line 143): the five
evenly spaced growth rates of the sensitivity sweep. -/
def grs : List ℚ := (List.range 5).map (fun (i : ℕ) => 1/20 + (i : ℚ) * (1/20))

/-- The sensitivity sweep of `save_chart_images`
(src/app.py lines 142-154): for each growth rate in `grs`, run
`simulate_df` with 200 trials (other parameters unchanged) and take
the mean of the `Profit` column; the result pairs each growth rate
with its average profit.  `srcs i` is the random stream consumed by
the `i`-th call. -/
def sens_sweep (base_sales cost_pct tax_pct : ℚ)
    (srcs : ℕ → ℕ → ℚ × ℚ) : List (ℚ × Option ℚ) :=
  (List.range 5).map (fun (i : ℕ) =>
    (1/20 + (i : ℚ) * (1/20),
     seriesMean (profits
       (simulate_df base_sales (1/20 + (i : ℚ) * (1/20)) cost_pct tax_pct 200
         (srcs i)))))

/-- The all-zero random source, used to evaluate at concrete inputs. -/
def zsrc : ℕ → ℚ × ℚ := fun _ => (0, 0)

theorem zsrc_valid : ValidSrc zsrc := by
  intro i
  refine ⟨le_refl 0, ?_, le_refl 0, ?_⟩ <;> norm_num [zsrc]

theorem mem_simulate_df {base gr cp tp : ℚ} {n : ℤ} {src : ℕ → ℚ × ℚ}
    {t : Trial} (ht : t ∈ simulate_df base gr cp tp n src) :
    ∃ i, t = mkTrial base gr cp tp (src i).1 (src i).2 := by
  simp only [simulate_df, List.mem_map] at ht
  obtain ⟨i, _, h⟩ := ht
  exact ⟨i, h.symm⟩

theorem simulate_df_one (base gr cp tp : ℚ) (src : ℕ → ℚ × ℚ) :
    simulate_df base gr cp tp 1 src
      = [mkTrial base gr cp tp (src 0).1 (src 0).2] := rfl

/-- C1: for every parameter set and every run count `n ≥ 1`,
`simulate_df` returns a trial set containing exactly `n` trials. -/
theorem C1_generate_length (base gr cp tp : ℚ) (n : ℤ) (src : ℕ → ℚ × ℚ)
    (hn : 1 ≤ n) :
    ((simulate_df base gr cp tp n src).length : ℤ) = n := by
  simp only [simulate_df, List.length_map, List.length_range]
  omega

theorem C1_generate_length_witness :
    ((simulate_df 500000 (1/10) (2/5) (1/5) 3 zsrc).length : ℤ) = 3 :=
  C1_generate_length 500000 (1/10) (2/5) (1/5) 3 zsrc (by norm_num)

/-- C2: every trial of `simulate_df` satisfies
`profit = (revenue - cost) * (1 - tax_fraction)`. -/
theorem C2_profit_formula (base gr cp tp : ℚ) (n : ℤ) (src : ℕ → ℚ × ℚ)
    (t : Trial) (ht : t ∈ simulate_df base gr cp tp n src) :
    t.profit = (t.revenue - t.cost) * (1 - tp) := by
  obtain ⟨i, rfl⟩ := mem_simulate_df ht
  simp [mkTrial]

theorem C2_profit_formula_witness :
    (mkTrial 500000 (1/10) (2/5) (1/5) 0 0).profit
      = ((mkTrial 500000 (1/10) (2/5) (1/5) 0 0).revenue
          - (mkTrial 500000 (1/10) (2/5) (1/5) 0 0).cost) * (1 - 1/5) :=
  C2_profit_formula 500000 (1/10) (2/5) (1/5) 1 zsrc
    (mkTrial 500000 (1/10) (2/5) (1/5) 0 0)
    (by rw [simulate_df_one]; simp [zsrc])

/-- C3 counterexample: `simulate_df` performs no parameter validation;
at `run_count = 0` it returns the empty trial set (Python's
`range(0)` yields no iterations) instead of failing with any error. -/
theorem C3_no_validation_counterexample :
    simulate_df 500000 (1/10) (2/5) (1/5) 0 zsrc = []
      ∧ simulate_df 500000 (1/10) (2/5) (1/5) (-7) zsrc = [] :=
  ⟨rfl, rfl⟩

/-- C3 amended: for every `run_count ≤ 0`, `simulate_df` returns the
empty trial set; no error is raised and no parameter is validated. -/
theorem C3_amended_empty (base gr cp tp : ℚ) (n : ℤ) (src : ℕ → ℚ × ℚ)
    (hn : n ≤ 0) :
    simulate_df base gr cp tp n src = [] := by
  simp only [simulate_df, List.map_eq_nil_iff, List.range_eq_nil]
  omega

theorem C3_amended_empty_witness :
    simulate_df 500000 (1/10) (2/5) (1/5) (-3) zsrc = [] :=
  C3_amended_empty 500000 (1/10) (2/5) (1/5) (-3) zsrc (by norm_num)

/-- C4 counterexample: the statistics step of `run_and_save_once`
applied to an empty trial set returns a `Metrics` value whose four
entries are all `NaN` (`none`); it does not fail with any error. -/
theorem C4_empty_counterexample :
    run_metrics [] = ⟨none, none, none, none⟩ := rfl

/-- C4 amended: on every trial set of length 0 the statistics step
returns the all-`NaN` `Metrics` value rather than raising an error. -/
theorem C4_amended_nan (ts : List Trial) (h : ts.length = 0) :
    run_metrics ts = ⟨none, none, none, none⟩ := by
  rw [List.length_eq_zero] at h
  subst h
  rfl

theorem C4_amended_nan_witness :
    run_metrics [] = ⟨none, none, none, none⟩ :=
  C4_amended_nan [] rfl

/-- C5: for nonnegative `base_sales` and `growth_rate` and a valid
random source, every trial's revenue lies in
`[base_sales*(1-growth_rate), base_sales*(1+growth_rate)]`. -/
theorem C5_revenue_bounds (base gr cp tp : ℚ) (n : ℤ) (src : ℕ → ℚ × ℚ)
    (hbase : 0 ≤ base) (hgr : 0 ≤ gr) (hsrc : ValidSrc src)
    (t : Trial) (ht : t ∈ simulate_df base gr cp tp n src) :
    base * (1 - gr) ≤ t.revenue ∧ t.revenue ≤ base * (1 + gr) := by
  obtain ⟨i, rfl⟩ := mem_simulate_df ht
  obtain ⟨h1, h2, _, _⟩ := hsrc i
  simp only [mkTrial, uniform]
  constructor
  · nlinarith [mul_nonneg (mul_nonneg hbase hgr) h1]
  · nlinarith [mul_nonneg (mul_nonneg hbase hgr) (sub_nonneg.mpr h2)]

theorem C5_revenue_bounds_witness :
    500000 * (1 - 1/10) ≤ (mkTrial 500000 (1/10) (2/5) (1/5) 0 0).revenue
      ∧ (mkTrial 500000 (1/10) (2/5) (1/5) 0 0).revenue
          ≤ 500000 * (1 + 1/10) :=
  C5_revenue_bounds 500000 (1/10) (2/5) (1/5) 1 zsrc (by norm_num)
    (by norm_num) zsrc_valid (mkTrial 500000 (1/10) (2/5) (1/5) 0 0)
    (by rw [simulate_df_one]; simp [zsrc])

/-- C8: with `base_sales = 500000`, `growth_rate = 0`,
`cost_fraction = 2/5`, `tax_fraction = 1/5`, `run_count = 1` and any
valid random source, the produced trial has revenue exactly `500000`,
cost in `[175000, 225000]`, profit `= (500000 - cost) * (4/5)`, and
profit in `[220000, 260000]`. -/
theorem C8_concrete_scenario (src : ℕ → ℚ × ℚ) (hsrc : ValidSrc src)
    (t : Trial) (ht : t ∈ simulate_df 500000 0 (2/5) (1/5) 1 src) :
    t.revenue = 500000
      ∧ 175000 ≤ t.cost ∧ t.cost ≤ 225000
      ∧ t.profit = (500000 - t.cost) * (4/5)
      ∧ 220000 ≤ t.profit ∧ t.profit ≤ 260000 := by
  obtain ⟨i, rfl⟩ := mem_simulate_df ht
  obtain ⟨_, _, h3, h4⟩ := hsrc i
  simp only [mkTrial, uniform]
  refine ⟨by ring, by nlinarith, by nlinarith, by ring, by nlinarith,
    by nlinarith⟩

theorem C8_concrete_scenario_witness :
    (mkTrial 500000 0 (2/5) (1/5) 0 0).revenue = 500000
      ∧ 175000 ≤ (mkTrial 500000 0 (2/5) (1/5) 0 0).cost
      ∧ (mkTrial 500000 0 (2/5) (1/5) 0 0).cost ≤ 225000
      ∧ (mkTrial 500000 0 (2/5) (1/5) 0 0).profit
          = (500000 - (mkTrial 500000 0 (2/5) (1/5) 0 0).cost) * (4/5)
      ∧ 220000 ≤ (mkTrial 500000 0 (2/5) (1/5) 0 0).profit
      ∧ (mkTrial 500000 0 (2/5) (1/5) 0 0).profit ≤ 260000 :=
  C8_concrete_scenario zsrc zsrc_valid (mkTrial 500000 0 (2/5) (1/5) 0 0)
    (by rw [simulate_df_one]; simp [zsrc])

theorem bound_aux (R D T B : ℚ) (hR0 : 0 < R) (hR2 : R ≤ 2 * B)
    (hD1 : -(1/20) ≤ 1 - D) (hD2 : 1 - D ≤ 21/20)
    (hT0 : 0 < 1 - T) (hT1 : 1 - T ≤ 1) :
    |(R - R * D) * (1 - T)| ≤ 21/10 * B := by
  have hB : 0 < B := by linarith
  have hq_lo : -(1/20) ≤ (1 - D) * (1 - T) := by
    rcases le_or_lt 0 (1 - D) with h | h
    · nlinarith
    · nlinarith
  have hq_hi : (1 - D) * (1 - T) ≤ 21/20 := by
    rcases le_or_lt 0 (1 - D) with h | h
    · nlinarith
    · nlinarith
  rw [abs_le]
  constructor
  · nlinarith [mul_le_mul_of_nonneg_left hq_lo hR0.le]
  · nlinarith [mul_le_mul_of_nonneg_left hq_hi hR0.le]

/-- C9: under the spec's domain constraints
(`0 < base_sales`, `0 ≤ growth_rate < 1`, `0 < cost_fraction < 1`,
`0 ≤ tax_fraction < 1`) and any valid random source, every trial's
profit is bounded by the explicit finite quantity
`(21/10) * base_sales`; `simulate_df` is total over exact rationals,
so every profit is a well-defined finite value. -/
theorem C9_profit_finite (base gr cp tp : ℚ) (n : ℤ) (src : ℕ → ℚ × ℚ)
    (hbase : 0 < base) (hgr0 : 0 ≤ gr) (hgr1 : gr < 1)
    (hcp0 : 0 < cp) (hcp1 : cp < 1) (htp0 : 0 ≤ tp) (htp1 : tp < 1)
    (hsrc : ValidSrc src)
    (t : Trial) (ht : t ∈ simulate_df base gr cp tp n src) :
    |t.profit| ≤ (21/10) * base := by
  obtain ⟨i, rfl⟩ := mem_simulate_df ht
  obtain ⟨h1, h2, h3, h4⟩ := hsrc i
  simp only [mkTrial, uniform]
  have hA : (0:ℚ) < 1 + (-gr + (gr - -gr) * (src i).1) := by
    nlinarith [mul_nonneg hgr0 h1]
  have hB : 1 + (-gr + (gr - -gr) * (src i).1) ≤ 2 := by
    nlinarith [mul_nonneg hgr0 (sub_nonneg.mpr h2)]
  refine bound_aux _ _ _ _ (mul_pos hbase hA) ?_ ?_ ?_ (by linarith)
    (by linarith)
  · nlinarith [mul_le_mul_of_nonneg_left hB hbase.le]
  · linarith
  · linarith

theorem C9_profit_finite_witness :
    |(mkTrial 500000 (1/10) (2/5) (1/5) 0 0).profit|
      ≤ (21/10) * 500000 :=
  C9_profit_finite 500000 (1/10) (2/5) (1/5) 1 zsrc (by norm_num)
    (by norm_num) (by norm_num) (by norm_num) (by norm_num) (by norm_num)
    (by norm_num) zsrc_valid (mkTrial 500000 (1/10) (2/5) (1/5) 0 0)
    (by rw [simulate_df_one]; simp [zsrc])

/-- C10: with the random draws held fixed, revenue and cost do not
depend on the tax fraction; if `cost ≤ revenue` then profit is
non-increasing in the tax fraction, and for a tax fraction below 1 the
profit is positive exactly when `cost < revenue` and zero exactly when
`cost = revenue`. -/
theorem C10_tax_monotone_sign (base gr cp u1 u2 t1 t2 : ℚ)
    (h12 : t1 ≤ t2) (ht1 : t1 < 1)
    (hcr : (mkTrial base gr cp t1 u1 u2).cost
            ≤ (mkTrial base gr cp t1 u1 u2).revenue) :
    (mkTrial base gr cp t2 u1 u2).revenue
        = (mkTrial base gr cp t1 u1 u2).revenue
      ∧ (mkTrial base gr cp t2 u1 u2).cost
          = (mkTrial base gr cp t1 u1 u2).cost
      ∧ (mkTrial base gr cp t2 u1 u2).profit
          ≤ (mkTrial base gr cp t1 u1 u2).profit
      ∧ (0 < (mkTrial base gr cp t1 u1 u2).profit
          ↔ (mkTrial base gr cp t1 u1 u2).cost
              < (mkTrial base gr cp t1 u1 u2).revenue)
      ∧ ((mkTrial base gr cp t1 u1 u2).profit = 0
          ↔ (mkTrial base gr cp t1 u1 u2).cost
              = (mkTrial base gr cp t1 u1 u2).revenue) := by
  simp only [mkTrial, uniform] at *
  refine ⟨by trivial, by trivial, ?_, ?_, ?_⟩
  · nlinarith
  · constructor
    · intro h
      nlinarith
    · intro h
      nlinarith
  · constructor
    · intro h
      nlinarith
    · intro h
      rw [sub_eq_zero.mpr h.symm] at *
      ring

theorem C10_tax_monotone_sign_witness :
    (mkTrial 500000 (1/10) (2/5) (3/10) 0 0).revenue
        = (mkTrial 500000 (1/10) (2/5) (1/5) 0 0).revenue
      ∧ (mkTrial 500000 (1/10) (2/5) (3/10) 0 0).cost
          = (mkTrial 500000 (1/10) (2/5) (1/5) 0 0).cost
      ∧ (mkTrial 500000 (1/10) (2/5) (3/10) 0 0).profit
          ≤ (mkTrial 500000 (1/10) (2/5) (1/5) 0 0).profit
      ∧ (0 < (mkTrial 500000 (1/10) (2/5) (1/5) 0 0).profit
          ↔ (mkTrial 500000 (1/10) (2/5) (1/5) 0 0).cost
              < (mkTrial 500000 (1/10) (2/5) (1/5) 0 0).revenue)
      ∧ ((mkTrial 500000 (1/10) (2/5) (1/5) 0 0).profit = 0
          ↔ (mkTrial 500000 (1/10) (2/5) (1/5) 0 0).cost
              = (mkTrial 500000 (1/10) (2/5) (1/5) 0 0).revenue) :=
  C10_tax_monotone_sign 500000 (1/10) (2/5) 0 0 (1/5) (3/10)
    (by norm_num) (by norm_num) (by norm_num [mkTrial, uniform])

theorem seriesMax_cons (a : ℚ) (l : List ℚ) :
    seriesMax (a :: l) = match seriesMax l with
      | none => some a
      | some m => some (max a m) := rfl

theorem seriesMin_cons (a : ℚ) (l : List ℚ) :
    seriesMin (a :: l) = match seriesMin l with
      | none => some a
      | some m => some (min a m) := rfl

theorem seriesMax_spec (xs : List ℚ) (h : xs ≠ []) :
    ∃ m, seriesMax xs = some m ∧ m ∈ xs ∧ ∀ x ∈ xs, x ≤ m := by
  induction xs with
  | nil => exact absurd rfl h
  | cons a l ih =>
    rcases eq_or_ne l [] with rfl | hl
    · exact ⟨a, rfl, by simp, by simp⟩
    · obtain ⟨m, hm, hmem, hub⟩ := ih hl
      refine ⟨max a m, by rw [seriesMax_cons, hm], ?_, ?_⟩
      · rcases le_total a m with h' | h'
        · simp [max_eq_right h', hmem]
        · simp [max_eq_left h']
      · intro x hx
        rcases List.mem_cons.mp hx with rfl | hx
        · exact le_max_left _ _
        · exact le_trans (hub x hx) (le_max_right _ _)

theorem seriesMin_spec (xs : List ℚ) (h : xs ≠ []) :
    ∃ m, seriesMin xs = some m ∧ m ∈ xs ∧ ∀ x ∈ xs, m ≤ x := by
  induction xs with
  | nil => exact absurd rfl h
  | cons a l ih =>
    rcases eq_or_ne l [] with rfl | hl
    · exact ⟨a, rfl, by simp, by simp⟩
    · obtain ⟨m, hm, hmem, hlb⟩ := ih hl
      refine ⟨min a m, by rw [seriesMin_cons, hm], ?_, ?_⟩
      · rcases le_total a m with h' | h'
        · simp [min_eq_left h']
        · simp [min_eq_right h', hmem]
      · intro x hx
        rcases List.mem_cons.mp hx with rfl | hx
        · exact min_le_left _ _
        · exact le_trans (min_le_right _ _) (hlb x hx)

/-- C6: on a non-empty trial set the statistics step returns the
arithmetic mean of the profits, their greatest element, their least
element, and (for at least two trials) the sample variance with
divisor `n - 1` — the square of the sample standard deviation; on a
single-trial set, mean, max and min all equal that trial's profit and
the standard deviation is `NaN` (`none`). -/
theorem C6_summary_stats (ts : List Trial) (hne : ts ≠ []) :
    (run_metrics ts).avg = some ((profits ts).sum / (ts.length : ℚ))
      ∧ (∃ m, (run_metrics ts).maxv = some m ∧ m ∈ profits ts
          ∧ ∀ x ∈ profits ts, x ≤ m)
      ∧ (∃ m, (run_metrics ts).minv = some m ∧ m ∈ profits ts
          ∧ ∀ x ∈ profits ts, m ≤ x)
      ∧ (2 ≤ ts.length →
          (run_metrics ts).varv
            = some (((profits ts).map
                (fun x => (x - (profits ts).sum / (ts.length : ℚ)) ^ 2)).sum
                / ((ts.length : ℚ) - 1)))
      ∧ (∀ t, ts = [t] →
          (run_metrics ts).avg = some t.profit
            ∧ (run_metrics ts).maxv = some t.profit
            ∧ (run_metrics ts).minv = some t.profit
            ∧ (run_metrics ts).varv = none) := by
  have hlen : (profits ts).length = ts.length := List.length_map _ _
  have hpne : profits ts ≠ [] := by
    simp [profits, List.map_eq_nil_iff, hne]
  have h0 : (profits ts).length ≠ 0 := by
    rw [hlen]
    simp [List.length_eq_zero, hne]
  refine ⟨?_, seriesMax_spec _ hpne, seriesMin_spec _ hpne, ?_, ?_⟩
  · simp [run_metrics, seriesMean, h0, hlen, hne]
  · intro h2
    have hgt : ¬ (profits ts).length ≤ 1 := by omega
    simp [run_metrics, seriesVar, hgt, hlen]
    omega
  · intro t ht
    subst ht
    refine ⟨?_, rfl, rfl, rfl⟩
    simp [run_metrics, seriesMean, profits]

theorem C6_summary_stats_witness :
    (run_metrics [⟨1, 2, 3⟩]).avg
        = some ((profits [⟨1, 2, 3⟩]).sum / (([(⟨1, 2, 3⟩ : Trial)].length : ℚ)))
      ∧ (∃ m, (run_metrics [⟨1, 2, 3⟩]).maxv = some m ∧ m ∈ profits [⟨1, 2, 3⟩]
          ∧ ∀ x ∈ profits [⟨1, 2, 3⟩], x ≤ m)
      ∧ (∃ m, (run_metrics [⟨1, 2, 3⟩]).minv = some m ∧ m ∈ profits [⟨1, 2, 3⟩]
          ∧ ∀ x ∈ profits [⟨1, 2, 3⟩], m ≤ x)
      ∧ (2 ≤ [(⟨1, 2, 3⟩ : Trial)].length →
          (run_metrics [⟨1, 2, 3⟩]).varv
            = some (((profits [⟨1, 2, 3⟩]).map
                (fun x => (x - (profits [⟨1, 2, 3⟩]).sum
                    / (([(⟨1, 2, 3⟩ : Trial)].length : ℚ))) ^ 2)).sum
                / ((([(⟨1, 2, 3⟩ : Trial)].length : ℚ)) - 1)))
      ∧ (∀ t, [(⟨1, 2, 3⟩ : Trial)] = [t] →
          (run_metrics [⟨1, 2, 3⟩]).avg = some t.profit
            ∧ (run_metrics [⟨1, 2, 3⟩]).maxv = some t.profit
            ∧ (run_metrics [⟨1, 2, 3⟩]).minv = some t.profit
            ∧ (run_metrics [⟨1, 2, 3⟩]).varv = none) :=
  C6_summary_stats [⟨1, 2, 3⟩] (by simp)

/-- C7: the sensitivity sweep produces exactly five entries, one for
each of the evenly spaced growth rates `0.05, 0.10, 0.15, 0.20, 0.25`,
pairing each rate with the mean profit of a fresh `simulate_df` run of
200 trials at that rate with the other parameters unchanged. -/
theorem C7_sens_sweep (base cp tp : ℚ) (srcs : ℕ → ℕ → ℚ × ℚ) :
    sens_sweep base cp tp srcs =
      [ (1/20, seriesMean (profits
          (simulate_df base (1/20) cp tp 200 (srcs 0)))),
        (1/10, seriesMean (profits
          (simulate_df base (1/10) cp tp 200 (srcs 1)))),
        (3/20, seriesMean (profits
          (simulate_df base (3/20) cp tp 200 (srcs 2)))),
        (1/5, seriesMean (profits
          (simulate_df base (1/5) cp tp 200 (srcs 3)))),
        (1/4, seriesMean (profits
          (simulate_df base (1/4) cp tp 200 (srcs 4)))) ] := by
  simp only [sens_sweep, List.range_succ, List.range_zero,
    List.map_append, List.map_cons, List.map_nil, List.nil_append,
    List.cons_append]
  norm_num

end App
